import Mathlib

/-!
# Verification of conda-smithy's anaconda token rotation module

This file is a shallow embedding of `conda_smithy/anaconda_token_rotation.py`.
The module rotates a shared secret (the "anaconda/binstar token") across five
CI providers (circle, drone, travis, azure, appveyor).  External HTTP services
are modelled by "world" records that fix each response (status codes, listed
variable names, returned ciphertext); each adapter is a pure function from its
world, the in-scope strings and (for appveyor) the local configuration to the
ordered list of outward calls it issues plus an `Except` outcome standing for
Python's normal return / raised exception.

Machinery that the module calls but that lives outside this file's source
(`requests.Response.raise_for_status`, the `update_conda_forge_config`
context manager, the deferred imports from `ci_register` / `azure_ci_utils`)
is modelled by the world records and by `raise_for_status` below, mirroring
the documented behaviour of those collaborators.
-/

set_option autoImplicit false
set_option linter.unusedVariables false
set_option linter.unusedTactic false

namespace CondaSmithy

/-- A Python exception: its type name and its `str()` message. -/
structure PyErr where
  ty : String
  msg : String
deriving DecidableEq, Repr

/-- The five CI providers handled by `rotate_anaconda_token`. -/
inductive Provider
  | circle
  | drone
  | travis
  | azure
  | appveyor
deriving DecidableEq, Repr

/-- Position of a provider in the fixed invocation order of
`rotate_anaconda_token` (lines 55-123 of the source). -/
def Provider.idx : Provider → Nat
  | .circle => 0
  | .drone => 1
  | .travis => 2
  | .azure => 3
  | .appveyor => 4

/-- The provider name as it appears in the synthesized error messages. -/
def provName : Provider → String
  | .circle => "circle"
  | .drone => "drone"
  | .travis => "travis"
  | .azure => "azure"
  | .appveyor => "appveyor"

/-- `vsts.build.v4_1.models.BuildDefinitionVariable` as used on line 295. -/
structure BuildDefinitionVariable where
  allow_override : Bool
  is_secret : Bool
  value : String
deriving DecidableEq, Repr

/-- One outward-visible operation of an adapter: an HTTP request to a
provider, or the appveyor adapter's local configuration write. -/
inductive Call
  | circleGetEnvvars
  | circleDelete (name : String)
  | circleCreate (name value : String)
  | droneGetSecrets
  | dronePatch (name data : String)
  | dronePost (name data : String)
  | travisGetRepoInfo
  | travisGetEnvVars
  | travisPatch (evId : Option String) (name value : String)
  | travisPost (name value : String)
  | azureGetDefinitions
  | azureUpdateDefinition (defId revision : Nat)
      (vars : List (String × BuildDefinitionVariable))
  | appveyorEncrypt (plainValue : String)
  | appveyorConfigWrite (path : List String) (value : String)
deriving DecidableEq, Repr

/-- The provider an outward call belongs to. -/
def callProvider : Call → Provider
  | .circleGetEnvvars => .circle
  | .circleDelete _ => .circle
  | .circleCreate _ _ => .circle
  | .droneGetSecrets => .drone
  | .dronePatch _ _ => .drone
  | .dronePost _ _ => .drone
  | .travisGetRepoInfo => .travis
  | .travisGetEnvVars => .travis
  | .travisPatch _ _ _ => .travis
  | .travisPost _ _ => .travis
  | .azureGetDefinitions => .azure
  | .azureUpdateDefinition _ _ _ => .azure
  | .appveyorEncrypt _ => .appveyor
  | .appveyorConfigWrite _ _ => .appveyor

/-- `requests.Response.raise_for_status`: raises `HTTPError` exactly for
status codes in [400, 600), and is a no-op otherwise. -/
def raise_for_status (status : Nat) : Except PyErr Unit :=
  if 400 ≤ status ∧ status < 600 then
    Except.error ⟨"HTTPError", toString status ++ " Error"⟩
  else Except.ok ()

/-- `str(ValueError(response))`: the `repr` of a `requests.Response`. -/
def responseValueError (status : Nat) : PyErr :=
  ⟨"ValueError", "<Response [" ++ toString status ++ "]>"⟩

/-! ## Association-list model of Python `dict` operations

Python `dict`s preserve insertion order; assignment to an existing key keeps
its position, assignment to a fresh key appends. -/

/-- `m[k]` lookup returning `none` when the key is absent. -/
def assocGet {α : Type} : List (String × α) → String → Option α
  | [], _ => none
  | (k0, v0) :: rest, k => if k0 == k then some v0 else assocGet rest k

/-- `m[k] = v`: overwrite in place, or append when the key is fresh. -/
def assocSet {α : Type} : List (String × α) → String → α → List (String × α)
  | [], k, v => [(k, v)]
  | (k0, v0) :: rest, k, v =>
    if k0 == k then (k, v) :: rest else (k0, v0) :: assocSet rest k v

/-- `m.setdefault(k, d)`: the value now stored under `k`, and the dict
(unchanged when `k` was present, extended by `(k, d)` otherwise). -/
def setdefault {α : Type} (m : List (String × α)) (k : String) (d : α) :
    α × List (String × α) :=
  match assocGet m k with
  | some v => (v, m)
  | none => (d, m ++ [(k, d)])

/-! ## Circle adapter (`rotate_token_in_circle`, lines 143-184) -/

/-- The responses circleci will give to the three possible requests. -/
structure CircleWorld where
  listStatus : Nat
  envvars : List String
  deleteStatus : Nat
  createStatus : Nat
deriving DecidableEq, Repr

/-- Lines 176-184: the final `POST` of `{"name": "BINSTAR_TOKEN", "value":
binstar_token}`, raising `ValueError(response)` on any non-201 status. -/
def circleCreateStep (w : CircleWorld) (binstar_token : String)
    (trace : List Call) : List Call × Except PyErr Unit :=
  let trace := trace ++ [Call.circleCreate "BINSTAR_TOKEN" binstar_token]
  if w.createStatus ≠ 201 then (trace, Except.error (responseValueError w.createStatus))
  else (trace, Except.ok ())

/-- Model of `rotate_token_in_circle`: list env vars, delete an existing
`BINSTAR_TOKEN` entry if present, then create the new entry. -/
def rotate_token_in_circle (w : CircleWorld) (user project binstar_token : String) :
    List Call × Except PyErr Unit :=
  match (if w.listStatus ≠ 200 then raise_for_status w.listStatus else Except.ok ()) with
  | .error e => ([Call.circleGetEnvvars], Except.error e)
  | .ok () =>
    let have_binstar_token := w.envvars.any (fun n => n == "BINSTAR_TOKEN")
    if have_binstar_token then
      match (if w.deleteStatus ≠ 200 then raise_for_status w.deleteStatus else Except.ok ()) with
      | .error e =>
        ([Call.circleGetEnvvars, Call.circleDelete "BINSTAR_TOKEN"], Except.error e)
      | .ok () =>
        circleCreateStep w binstar_token
          [Call.circleGetEnvvars, Call.circleDelete "BINSTAR_TOKEN"]
    else
      circleCreateStep w binstar_token [Call.circleGetEnvvars]

/-! ## Drone adapter (`rotate_token_in_drone`, lines 187-215) -/

structure DroneWorld where
  listStatus : Nat
  secrets : List String
  patchStatus : Nat
  postStatus : Nat
deriving DecidableEq, Repr

/-- Model of `rotate_token_in_drone`: list secrets (unconditional
`raise_for_status`), then patch by name or post a fresh secret. -/
def rotate_token_in_drone (w : DroneWorld) (user project binstar_token : String) :
    List Call × Except PyErr Unit :=
  match raise_for_status w.listStatus with
  | .error e => ([Call.droneGetSecrets], Except.error e)
  | .ok () =>
    let have_binstar_token := w.secrets.any (fun n => "BINSTAR_TOKEN" == n)
    if have_binstar_token then
      ([Call.droneGetSecrets, Call.dronePatch "BINSTAR_TOKEN" binstar_token],
        raise_for_status w.patchStatus)
    else
      ([Call.droneGetSecrets, Call.dronePost "BINSTAR_TOKEN" binstar_token],
        if w.postStatus ≠ 200 then raise_for_status w.postStatus else Except.ok ())

/-! ## Travis adapter (`rotate_token_in_travis`, lines 218-269) -/

structure TravisWorld where
  repoId : Nat
  listStatus : Nat
  envVars : List (String × String)
  patchStatus : Nat
  postStatus : Nat
deriving DecidableEq, Repr

/-- The loop of lines 238-243: `have_binstar_token` together with the id of
the last listed env var named `BINSTAR_TOKEN`. -/
def travisScan (envVars : List (String × String)) : Bool × Option String :=
  envVars.foldl
    (fun acc ev => if ev.1 == "BINSTAR_TOKEN" then (true, some ev.2) else acc)
    (false, none)

/-- Model of `rotate_token_in_travis`: resolve the repo id, list env vars,
then patch the captured env-var id or post a fresh env var. -/
def rotate_token_in_travis (w : TravisWorld) (user project binstar_token : String) :
    List Call × Except PyErr Unit :=
  let t0 := [Call.travisGetRepoInfo, Call.travisGetEnvVars]
  match (if w.listStatus ≠ 200 then raise_for_status w.listStatus else Except.ok ()) with
  | .error e => (t0, Except.error e)
  | .ok () =>
    let scan := travisScan w.envVars
    if scan.1 then
      (t0 ++ [Call.travisPatch scan.2 "BINSTAR_TOKEN" binstar_token],
        raise_for_status w.patchStatus)
    else
      (t0 ++ [Call.travisPost "BINSTAR_TOKEN" binstar_token],
        if w.postStatus ≠ 201 then raise_for_status w.postStatus else Except.ok ())

/-! ## Azure adapter (`rotate_token_in_azure`, lines 272-312) -/

/-- The parts of an azure build definition read by the adapter. -/
structure AzureDef where
  id : Nat
  revision : Nat
  projectName : String
  vars : Option (List (String × BuildDefinitionVariable))
deriving DecidableEq, Repr

structure AzureWorld where
  existingDefinitions : List AzureDef
deriving DecidableEq, Repr

/-- Model of `rotate_token_in_azure`: fetch the existing definition (exactly
one must exist), overwrite its `BINSTAR_TOKEN` variable and submit the whole
definition back. -/
def rotate_token_in_azure (w : AzureWorld) (user project binstar_token : String) :
    List Call × Except PyErr Unit :=
  match w.existingDefinitions with
  | [] =>
    ([Call.azureGetDefinitions],
      Except.error ⟨"RuntimeError",
        "Cannot add BINSTAR_TOKEN to a repo that is not already registerd on azure CI!"⟩)
  | [ed] =>
    let vars := ed.vars.getD []
    let vars := assocSet vars "BINSTAR_TOKEN"
      { allow_override := false, is_secret := true, value := binstar_token }
    ([Call.azureGetDefinitions,
      Call.azureUpdateDefinition ed.id ed.revision vars], Except.ok ())
  | _ :: _ :: _ =>
    ([Call.azureGetDefinitions],
      Except.error ⟨"AssertionError", "len(existing_definitions) == 1"⟩)

/-! ## Appveyor adapter (`rotate_token_in_appveyor`, lines 315-329) -/

/-- A YAML-like value in the local conda-forge configuration. -/
inductive CfgVal
  | str (s : String)
  | map (entries : List (String × CfgVal))

/-- The local per-feedstock configuration mapping. -/
abbrev Cfg := List (String × CfgVal)

structure AppveyorWorld where
  encryptStatus : Nat
  encryptContent : String
deriving DecidableEq, Repr

/-- Lines 326-329: inside the `update_conda_forge_config` scope, run
`code.setdefault("appveyor", {}).setdefault("secure", {})["BINSTAR_TOKEN"] =
ciphertext`.  A non-dict value where a dict is expected raises, as the
corresponding Python attribute/item access would. -/
def appveyor_config_write (cfg : Cfg) (ciphertext : String) : Except PyErr Cfg :=
  match (setdefault cfg "appveyor" (CfgVal.map [])).1 with
  | CfgVal.map avEntries =>
    match (setdefault avEntries "secure" (CfgVal.map [])).1 with
    | CfgVal.map secEntries =>
      Except.ok (assocSet (setdefault cfg "appveyor" (CfgVal.map [])).2 "appveyor"
        (CfgVal.map (assocSet (setdefault avEntries "secure" (CfgVal.map [])).2 "secure"
          (CfgVal.map (assocSet secEntries "BINSTAR_TOKEN" (CfgVal.str ciphertext))))))
    | CfgVal.str _ =>
      Except.error ⟨"TypeError", "str object does not support item assignment"⟩
  | CfgVal.str _ =>
    Except.error ⟨"AttributeError", "str object has no attribute setdefault"⟩

/-- Model of `rotate_token_in_appveyor`: call the encryption endpoint, raise
`ValueError(response)` on a non-200 status, and only then open and patch the
local configuration. -/
def rotate_token_in_appveyor (w : AppveyorWorld) (cfg : Cfg) (binstar_token : String) :
    List Call × Cfg × Except PyErr Unit :=
  let t0 := [Call.appveyorEncrypt binstar_token]
  if w.encryptStatus ≠ 200 then
    (t0, cfg, Except.error (responseValueError w.encryptStatus))
  else
    match appveyor_config_write cfg w.encryptContent with
    | .ok cfg2 =>
      (t0 ++ [Call.appveyorConfigWrite ["appveyor", "secure", "BINSTAR_TOKEN"]
        w.encryptContent], cfg2, Except.ok ())
    | .error e => (t0, cfg, Except.error e)

/-! ## The orchestrator (`rotate_anaconda_token`, lines 10-140) -/

/-- The arguments of `rotate_anaconda_token` (the feedstock directory is
represented by the configuration it holds, carried in `Worlds`). -/
structure RotateInput where
  user : String
  project : String
  token : String
  drone : Bool := true
  circle : Bool := true
  travis : Bool := true
  azure : Bool := true
  appveyor : Bool := true
deriving DecidableEq, Repr

/-- Everything outside the module that a call can observe: the five provider
worlds, the local configuration, whether `DEBUG_ANACONDA_TOKENS` is in the
environment, and whether the deferred imports of lines 32-39 succeed. -/
structure Worlds where
  circleW : CircleWorld
  droneW : DroneWorld
  travisW : TravisWorld
  azureW : AzureWorld
  appveyorW : AppveyorWorld
  config : Cfg
  debug : Bool
  anacondaTokenOk : Bool
  auxImportsOk : Bool

/-- The keyword flag guarding each provider's block. -/
def providerFlag (inp : RotateInput) : Provider → Bool
  | .circle => inp.circle
  | .drone => inp.drone
  | .travis => inp.travis
  | .azure => inp.azure
  | .appveyor => inp.appveyor

/-- Run one provider's adapter: the calls it makes, the configuration
afterwards (only appveyor touches it) and the raised/normal outcome. -/
def adapterCall (inp : RotateInput) (w : Worlds) (cfg : Cfg) :
    Provider → List Call × Cfg × Except PyErr Unit
  | .circle =>
    ((rotate_token_in_circle w.circleW inp.user inp.project inp.token).1, cfg,
      (rotate_token_in_circle w.circleW inp.user inp.project inp.token).2)
  | .drone =>
    ((rotate_token_in_drone w.droneW inp.user inp.project inp.token).1, cfg,
      (rotate_token_in_drone w.droneW inp.user inp.project inp.token).2)
  | .travis =>
    ((rotate_token_in_travis w.travisW inp.user inp.project inp.token).1, cfg,
      (rotate_token_in_travis w.travisW inp.user inp.project inp.token).2)
  | .azure =>
    ((rotate_token_in_azure w.azureW inp.user inp.project inp.token).1, cfg,
      (rotate_token_in_azure w.azureW inp.user inp.project inp.token).2)
  | .appveyor => rotate_token_in_appveyor w.appveyorW cfg inp.token

/-- How the `try` block around the provider sequence exits: fell through
normally, or an exception escaped it, together with the state of the `failed`
and `err_msg` locals at that point. -/
inductive ChainExit
  | done
  | raised (e : PyErr) (failed : Bool) (errMsg : Option String)
deriving DecidableEq, Repr

/-- The synthesized per-provider message of lines 62-65 (and its four
copies): `"Failed to rotate token for %s/%s on <provider>!"`. -/
def synthMsg (user project : String) (p : Provider) : String :=
  "Failed to rotate token for " ++ user ++ "/" ++ project ++ " on " ++ provName p ++ "!"

/-- The per-provider `try/except` of lines 56-67 (and its four copies): on an
adapter exception, re-raise it in debug mode, otherwise record the
synthesized message, set `failed` and raise `RuntimeError(err_msg)`. -/
def guardProvider (debug : Bool) (user project : String) (p : Provider)
    (res : List Call × Cfg × Except PyErr Unit) : List Call × Cfg × ChainExit :=
  match res.2.2 with
  | .ok () => (res.1, res.2.1, ChainExit.done)
  | .error e =>
    if debug then (res.1, res.2.1, ChainExit.raised e false none)
    else
      (res.1, res.2.1,
        ChainExit.raised ⟨"RuntimeError", synthMsg user project p⟩ true
          (some (synthMsg user project p)))

/-- One `if <flag>:` provider block of the orchestrator. -/
def stepProvider (inp : RotateInput) (w : Worlds) (cfg : Cfg) (p : Provider) :
    List Call × Cfg × ChainExit :=
  if providerFlag inp p then
    guardProvider w.debug inp.user inp.project p (adapterCall inp w cfg p)
  else ([], cfg, ChainExit.done)

/-- The body of the `try` of line 54: the provider blocks in program order,
stopping at the first escaping exception. -/
def runChain (inp : RotateInput) (w : Worlds) :
    List Provider → Cfg → List Call × Cfg × ChainExit
  | [], cfg => ([], cfg, ChainExit.done)
  | p :: ps, cfg =>
    let s := stepProvider inp w cfg p
    match s.2.2 with
    | .done =>
      let rest := runChain inp w ps s.2.1
      (s.1 ++ rest.1, rest.2.1, rest.2.2)
    | .raised e f m => (s.1, s.2.1, ChainExit.raised e f m)

/-- The fixed order in which the orchestrator attempts the providers. -/
def providerOrder : List Provider :=
  [Provider.circle, Provider.drone, Provider.travis, Provider.azure, Provider.appveyor]

/-- Where text written to stdout resp. stderr is sent while the redirection
scope of line 53 is active. -/
inductive Sink
  | stdout
  | stderr
  | devnull
deriving DecidableEq, Repr

/-- Lines 46-51: with `DEBUG_ANACONDA_TOKENS` set, `fpo = sys.stdout` and
`fpe = sys.stdout`; otherwise both are the `os.devnull` handle. -/
def redirectTargets (debug : Bool) : Sink × Sink :=
  if debug then (Sink.stdout, Sink.stdout) else (Sink.devnull, Sink.devnull)

/-- `str(RuntimeError(...))` of lines 133-140: the generic fallback. -/
def fallbackMsg (user project : String) : String :=
  "Rotating the feedstock token in proviers for " ++ user ++ "/" ++ project ++
    " failed! Try the command locally with DEBUG_ANACONDA_TOKENS defined in the" ++
    " environment to investigate!"

/-- The observable outcome of one call to `rotate_anaconda_token`. -/
structure RotateOutcome where
  calls : List Call
  config : Cfg
  result : Except PyErr Unit
  raisedAfterSuppression : Bool
  redirect : Option (Sink × Sink)

/-- Model of `rotate_anaconda_token`.  The token-availability check of lines
32-37 and the auxiliary imports of lines 38-39 run first, outside the
redirection scope; then the provider chain runs inside it; an exception
escaping the chain is re-raised in debug mode and otherwise recorded, and a
recorded failure raises `RuntimeError` only after the `with` blocks exit. -/
def rotate_anaconda_token (inp : RotateInput) (w : Worlds) : RotateOutcome :=
  if ¬ w.anacondaTokenOk then
    { calls := []
      config := w.config
      result := Except.error
        ⟨"RuntimeError", "You must have the anaconda token defined to do token rotation!"⟩
      raisedAfterSuppression := false
      redirect := none }
  else if ¬ w.auxImportsOk then
    { calls := []
      config := w.config
      result := Except.error ⟨"ImportError", "cannot import name"⟩
      raisedAfterSuppression := false
      redirect := none }
  else
    let targets := redirectTargets w.debug
    let r := runChain inp w providerOrder w.config
    match r.2.2 with
    | .done =>
      { calls := r.1, config := r.2.1, result := Except.ok ()
        raisedAfterSuppression := false, redirect := some targets }
    | .raised e _failed errMsg =>
      if w.debug then
        { calls := r.1, config := r.2.1, result := Except.error e
          raisedAfterSuppression := false, redirect := some targets }
      else
        { calls := r.1, config := r.2.1
          result := Except.error
            ⟨"RuntimeError", errMsg.getD (fallbackMsg inp.user inp.project)⟩
          raisedAfterSuppression := true, redirect := some targets }

/-! ## Substring machinery

`strHasSub hay needle` decides whether `needle` occurs contiguously in
`hay`; it is used to state which identifiers an error message mentions. -/

/-- `listStarts hay needle`: `needle` is an initial segment of `hay`. -/
def listStarts : List Char → List Char → Bool
  | _, [] => true
  | [], _ :: _ => false
  | a :: as, b :: bs => a == b && listStarts as bs

/-- `listHasSub hay needle`: `needle` occurs contiguously in `hay`. -/
def listHasSub : List Char → List Char → Bool
  | [], needle => needle.isEmpty
  | a :: t, needle => listStarts (a :: t) needle || listHasSub t needle

/-- `needle` occurs contiguously in `hay`. -/
def strHasSub (hay needle : String) : Bool :=
  listHasSub hay.data needle.data

/-- The same call with only the token replaced. -/
def tokenSet (inp : RotateInput) (t : String) : RotateInput := { inp with token := t }

/-- The value of an optional configuration entry viewed as a Python dict:
an absent entry acts as the fresh `{}` that `setdefault` supplies. -/
def asMap : Option CfgVal → Option (List (String × CfgVal))
  | none => some []
  | some (CfgVal.map m) => some m
  | some (CfgVal.str _) => none

/-- A call that installs the new secret under the name `BINSTAR_TOKEN`: the
three plain create posts, azure's whole-definition submit carrying the new
`BINSTAR_TOKEN` variable, and appveyor's local write of the ciphertext. -/
def isBinstarCreate (tok cipher : String) : Call → Bool
  | .circleCreate n v => n == "BINSTAR_TOKEN" && v == tok
  | .dronePost n d => n == "BINSTAR_TOKEN" && d == tok
  | .travisPost n v => n == "BINSTAR_TOKEN" && v == tok
  | .azureUpdateDefinition _ _ vs =>
    decide (assocGet vs "BINSTAR_TOKEN" =
      some { allow_override := false, is_secret := true, value := tok })
  | .appveyorConfigWrite path v =>
    decide (path = ["appveyor", "secure", "BINSTAR_TOKEN"]) && v == cipher
  | _ => false

/-! ## Concrete fixtures used to instantiate the theorems -/

/-- A circle world with no existing `BINSTAR_TOKEN` and all calls succeeding. -/
def okCircle : CircleWorld := ⟨200, [], 200, 201⟩

def okDrone : DroneWorld := ⟨200, [], 200, 200⟩

def okTravis : TravisWorld := ⟨77, 200, [], 200, 201⟩

def okAzureDef : AzureDef := ⟨5, 9, "proj", none⟩

def okAzure : AzureWorld := ⟨[okAzureDef]⟩

def okAppveyor : AppveyorWorld := ⟨200, "CIPHER"⟩

def cfgFixture : Cfg := [("bot", CfgVal.str "x")]

/-- All five providers healthy, production mode, imports fine. -/
def okWorlds : Worlds :=
  ⟨okCircle, okDrone, okTravis, okAzure, okAppveyor, cfgFixture, false, true, true⟩

def inpFixture : RotateInput := { user := "u", project := "p", token := "tok" }

/-- The listing call of the circle adapter answers HTTP 500. -/
def failCircle : CircleWorld := ⟨500, [], 200, 201⟩

def failCircleWorlds : Worlds := { okWorlds with circleW := failCircle }

def debugFailCircleWorlds : Worlds := { failCircleWorlds with debug := true }

def debugOkWorlds : Worlds := { okWorlds with debug := true }

def noTokenWorlds : Worlds := { okWorlds with anacondaTokenOk := false }

def debugNoTokenWorlds : Worlds := { noTokenWorlds with debug := true }

/-- A secret value that happens to coincide with a word of the sanitized
message template. -/
def inpTokenWord : RotateInput := { user := "u", project := "p", token := "token" }

def azureEmptyWorld : AzureWorld := ⟨[]⟩

def appveyorFailWorld : AppveyorWorld := ⟨500, "CIPHER"⟩

/-- An azure definition that already carries a `BINSTAR_TOKEN` variable. -/
def azureBusyDef : AzureDef :=
  ⟨5, 9, "proj", some [("OTHER", ⟨true, false, "o"⟩), ("BINSTAR_TOKEN", ⟨false, true, "old"⟩)]⟩

/-- A configuration with existing content at every level touched by the
appveyor write. -/
def cfgBusy : Cfg :=
  [("bot", CfgVal.str "x"),
   ("appveyor", CfgVal.map
     [("image", CfgVal.str "vs2017"),
      ("secure", CfgVal.map [("OTHER", CfgVal.str "o"), ("BINSTAR_TOKEN", CfgVal.str "old")])])]

def cfgBusyAv : List (String × CfgVal) :=
  [("image", CfgVal.str "vs2017"),
   ("secure", CfgVal.map [("OTHER", CfgVal.str "o"), ("BINSTAR_TOKEN", CfgVal.str "old")])]

def cfgBusySec : List (String × CfgVal) :=
  [("OTHER", CfgVal.str "o"), ("BINSTAR_TOKEN", CfgVal.str "old")]

/-- Worlds where each provider already holds a `BINSTAR_TOKEN` entry. -/
def circleBusy : CircleWorld := ⟨200, ["OTHER", "BINSTAR_TOKEN"], 200, 201⟩

def droneBusy : DroneWorld := ⟨200, ["BINSTAR_TOKEN"], 200, 200⟩

def travisBusy : TravisWorld := ⟨77, 200, [("OTHER", "1"), ("BINSTAR_TOKEN", "42")], 200, 201⟩

def azureBusyWorld : AzureWorld := ⟨[azureBusyDef]⟩

theorem listStarts_self_append (n rest : List Char) :
    listStarts (n ++ rest) n = true := by
  induction n with
  | nil => cases rest <;> rfl
  | cons a as ih => simp [listStarts, ih]

theorem listHasSub_of_listStarts {hay n : List Char} (h : listStarts hay n = true) :
    listHasSub hay n = true := by
  cases hay with
  | nil =>
    cases n with
    | nil => rfl
    | cons b bs => simp [listStarts] at h
  | cons a t => simp [listHasSub, h]

theorem listHasSub_append_right {ys n : List Char} (xs : List Char)
    (h : listHasSub ys n = true) : listHasSub (xs ++ ys) n = true := by
  induction xs with
  | nil => simpa using h
  | cons a as ih => simp [listHasSub, ih]

/-! ## Association-list lemmas -/

theorem assocGet_assocSet_same {α : Type} (m : List (String × α)) (k : String) (v : α) :
    assocGet (assocSet m k v) k = some v := by
  induction m with
  | nil => simp [assocGet, assocSet]
  | cons hd tl ih =>
    obtain ⟨k0, v0⟩ := hd
    by_cases h : k0 = k
    · subst h; simp [assocGet, assocSet]
    · simp [assocGet, assocSet, h, ih]

theorem assocGet_assocSet_ne {α : Type} (m : List (String × α)) (k k2 : String) (v : α)
    (h : k2 ≠ k) : assocGet (assocSet m k v) k2 = assocGet m k2 := by
  have hk : ¬ k = k2 := fun hh => h hh.symm
  induction m with
  | nil => simp [assocGet, assocSet, hk]
  | cons hd tl ih =>
    obtain ⟨k0, v0⟩ := hd
    simp only [assocSet]
    by_cases h0 : k0 = k
    · subst h0
      simp [assocGet, hk]
    · by_cases h2 : k0 = k2 <;> simp [assocGet, h0, h2, h, ih]

theorem assocGet_append_single_ne {α : Type} (m : List (String × α)) (k k2 : String)
    (d : α) (h : k2 ≠ k) : assocGet (m ++ [(k, d)]) k2 = assocGet m k2 := by
  have hk : ¬ k = k2 := fun hh => h hh.symm
  induction m with
  | nil => simp [assocGet, hk]
  | cons hd tl ih =>
    obtain ⟨k0, v0⟩ := hd
    by_cases h0 : k0 = k2 <;> simp [assocGet, h0, ih]

/-! ## Travis scan lemmas -/

theorem travisFoldl_no_match (l : List (String × String))
    (h : ∀ ev ∈ l, (ev.1 == "BINSTAR_TOKEN") = false) (acc : Bool × Option String) :
    l.foldl (fun acc ev => if ev.1 == "BINSTAR_TOKEN" then (true, some ev.2) else acc)
      acc = acc := by
  induction l generalizing acc with
  | nil => rfl
  | cons hd tl ih =>
    have hhd := h hd (List.mem_cons_self hd tl)
    simp only [List.foldl_cons, hhd]
    exact ih (fun ev hev => h ev (List.mem_cons_of_mem hd hev)) acc

theorem travisScan_not_found (l : List (String × String))
    (h : (l.any fun ev => ev.1 == "BINSTAR_TOKEN") = false) :
    travisScan l = (false, none) := by
  apply travisFoldl_no_match
  intro ev hev
  have := List.any_eq_false.mp h ev hev
  simpa using this

theorem travisScan_found (l1 l2 : List (String × String)) (i : String)
    (h2 : ∀ ev ∈ l2, (ev.1 == "BINSTAR_TOKEN") = false) :
    travisScan (l1 ++ ("BINSTAR_TOKEN", i) :: l2) = (true, some i) := by
  unfold travisScan
  rw [show l1 ++ ("BINSTAR_TOKEN", i) :: l2 = (l1 ++ [("BINSTAR_TOKEN", i)]) ++ l2 by
    simp]
  rw [List.foldl_append, List.foldl_append]
  rw [travisFoldl_no_match l2 h2]
  simp

/-! ## Per-adapter facts

Every call an adapter issues belongs to that adapter's provider, and the
outcome (normal return or exception) of every adapter is determined by its
world alone — never by the token value being installed. -/

theorem circle_calls_provider (w : CircleWorld) (u p t : String) :
    ∀ c ∈ (rotate_token_in_circle w u p t).1, callProvider c = Provider.circle := by
  intro c hc
  unfold rotate_token_in_circle circleCreateStep at hc
  repeat' split at hc
  all_goals dsimp only at hc
  all_goals repeat' split at hc
  all_goals fin_cases hc <;> rfl

theorem drone_calls_provider (w : DroneWorld) (u p t : String) :
    ∀ c ∈ (rotate_token_in_drone w u p t).1, callProvider c = Provider.drone := by
  intro c hc
  unfold rotate_token_in_drone at hc
  repeat' split at hc
  all_goals dsimp only at hc
  all_goals repeat' split at hc
  all_goals fin_cases hc <;> rfl

theorem travis_calls_provider (w : TravisWorld) (u p t : String) :
    ∀ c ∈ (rotate_token_in_travis w u p t).1, callProvider c = Provider.travis := by
  intro c hc
  unfold rotate_token_in_travis at hc
  repeat' split at hc
  all_goals dsimp only at hc
  all_goals repeat' split at hc
  all_goals fin_cases hc <;> rfl

theorem azure_calls_provider (w : AzureWorld) (u p t : String) :
    ∀ c ∈ (rotate_token_in_azure w u p t).1, callProvider c = Provider.azure := by
  intro c hc
  unfold rotate_token_in_azure at hc
  repeat' split at hc
  all_goals dsimp only at hc
  all_goals repeat' split at hc
  all_goals fin_cases hc <;> rfl

theorem appveyor_calls_provider (w : AppveyorWorld) (cfg : Cfg) (t : String) :
    ∀ c ∈ (rotate_token_in_appveyor w cfg t).1, callProvider c = Provider.appveyor := by
  intro c hc
  unfold rotate_token_in_appveyor at hc
  repeat' split at hc
  all_goals dsimp only at hc
  all_goals repeat' split at hc
  all_goals fin_cases hc <;> rfl

theorem circle_snd_world_only (w : CircleWorld) (u1 p1 t1 u2 p2 t2 : String) :
    (rotate_token_in_circle w u1 p1 t1).2 = (rotate_token_in_circle w u2 p2 t2).2 := by
  unfold rotate_token_in_circle circleCreateStep
  cases hx : (if w.listStatus ≠ 200 then raise_for_status w.listStatus else Except.ok ()) with
  | error e => rfl
  | ok u =>
    cases u
    by_cases hb : (w.envvars.any fun n => n == "BINSTAR_TOKEN") = true
    · simp only [hb, if_true]
      cases hy : (if w.deleteStatus ≠ 200 then raise_for_status w.deleteStatus
          else Except.ok ()) with
      | error e => rfl
      | ok u1 =>
        cases u1
        by_cases hcr : w.createStatus ≠ 201 <;> simp [hcr]
    · simp only [hb, if_false, Bool.false_eq_true]
      by_cases hcr : w.createStatus ≠ 201 <;> simp [hcr]

theorem drone_snd_world_only (w : DroneWorld) (u1 p1 t1 u2 p2 t2 : String) :
    (rotate_token_in_drone w u1 p1 t1).2 = (rotate_token_in_drone w u2 p2 t2).2 := by
  unfold rotate_token_in_drone
  cases hx : raise_for_status w.listStatus with
  | error e => rfl
  | ok u =>
    cases u
    by_cases hb : (w.secrets.any fun n => "BINSTAR_TOKEN" == n) = true <;> simp [hb]

theorem travis_snd_world_only (w : TravisWorld) (u1 p1 t1 u2 p2 t2 : String) :
    (rotate_token_in_travis w u1 p1 t1).2 = (rotate_token_in_travis w u2 p2 t2).2 := by
  unfold rotate_token_in_travis
  cases hx : (if w.listStatus ≠ 200 then raise_for_status w.listStatus else Except.ok ()) with
  | error e => rfl
  | ok u =>
    cases u
    by_cases hb : (travisScan w.envVars).1 = true <;> simp [hb]

theorem azure_snd_world_only (w : AzureWorld) (u1 p1 t1 u2 p2 t2 : String) :
    (rotate_token_in_azure w u1 p1 t1).2 = (rotate_token_in_azure w u2 p2 t2).2 := by
  unfold rotate_token_in_azure
  match w.existingDefinitions with
  | [] => rfl
  | [ed] => rfl
  | _ :: _ :: _ => rfl

theorem appveyor_snd_world_only (w : AppveyorWorld) (cfg : Cfg) (t1 t2 : String) :
    (rotate_token_in_appveyor w cfg t1).2 = (rotate_token_in_appveyor w cfg t2).2 := by
  unfold rotate_token_in_appveyor
  by_cases hs : w.encryptStatus ≠ 200
  · simp [hs]
  · simp only [hs, if_false]
    cases hx : appveyor_config_write cfg w.encryptContent <;> simp [hs]

/-! ## Chain-level lemmas -/

theorem adapterCall_cfg (inp : RotateInput) (w : Worlds) (cfg : Cfg) (p : Provider)
    (h : p ≠ Provider.appveyor) : (adapterCall inp w cfg p).2.1 = cfg := by
  cases p <;> first | rfl | exact absurd rfl h

theorem adapterCall_provider (inp : RotateInput) (w : Worlds) (cfg : Cfg) (p : Provider) :
    ∀ c ∈ (adapterCall inp w cfg p).1, callProvider c = p := by
  cases p
  · exact circle_calls_provider w.circleW inp.user inp.project inp.token
  · exact drone_calls_provider w.droneW inp.user inp.project inp.token
  · exact travis_calls_provider w.travisW inp.user inp.project inp.token
  · exact azure_calls_provider w.azureW inp.user inp.project inp.token
  · exact appveyor_calls_provider w.appveyorW cfg inp.token

theorem stepProvider_skip (inp : RotateInput) (w : Worlds) (cfg : Cfg) (p : Provider)
    (h : providerFlag inp p = false) : stepProvider inp w cfg p = ([], cfg, ChainExit.done) := by
  simp [stepProvider, h]

theorem stepProvider_ok (inp : RotateInput) (w : Worlds) (cfg : Cfg) (p : Provider)
    (hf : providerFlag inp p = true) (hok : (adapterCall inp w cfg p).2.2 = Except.ok ()) :
    stepProvider inp w cfg p =
      ((adapterCall inp w cfg p).1, (adapterCall inp w cfg p).2.1, ChainExit.done) := by
  simp [stepProvider, hf, guardProvider, hok]

theorem stepProvider_fail (inp : RotateInput) (w : Worlds) (cfg : Cfg) (p : Provider)
    (e : PyErr) (hf : providerFlag inp p = true)
    (he : (adapterCall inp w cfg p).2.2 = Except.error e) :
    stepProvider inp w cfg p =
      ((adapterCall inp w cfg p).1, (adapterCall inp w cfg p).2.1,
        if w.debug then ChainExit.raised e false none
        else ChainExit.raised ⟨"RuntimeError", synthMsg inp.user inp.project p⟩ true
          (some (synthMsg inp.user inp.project p))) := by
  by_cases hd : w.debug <;> simp [stepProvider, hf, guardProvider, he, hd]

/-- If every enabled provider before `p` succeeds, `p` is enabled and its
adapter raises, then the chain stops at `p`: the trace is the successful
earlier calls followed by `p`'s own calls, and the `try` block exits with the
original exception (debug) or the synthesized `RuntimeError` (otherwise). -/
theorem runChain_first_fail (inp : RotateInput) (w : Worlds) (p : Provider) (e : PyErr) :
    ∀ (l1 l2 : List Provider) (cfg : Cfg),
      (∀ q ∈ l1, q ≠ Provider.appveyor) →
      (∀ q ∈ l1, providerFlag inp q = true → (adapterCall inp w cfg q).2.2 = Except.ok ()) →
      providerFlag inp p = true →
      (adapterCall inp w cfg p).2.2 = Except.error e →
      ∃ pre,
        runChain inp w (l1 ++ p :: l2) cfg =
          (pre ++ (adapterCall inp w cfg p).1, (adapterCall inp w cfg p).2.1,
            if w.debug then ChainExit.raised e false none
            else ChainExit.raised ⟨"RuntimeError", synthMsg inp.user inp.project p⟩ true
              (some (synthMsg inp.user inp.project p))) ∧
        ∀ c ∈ pre, ∃ q, q ∈ l1 ∧ callProvider c = q ∧ providerFlag inp q = true := by
  intro l1
  induction l1 with
  | nil =>
    intro l2 cfg _ _ hp he
    refine ⟨[], ?_, ?_⟩
    · rw [List.nil_append]
      have hstep := stepProvider_fail inp w cfg p e hp he
      by_cases hd : w.debug <;> simp [runChain, hstep, hd]
    · intro c hc; cases hc
  | cons q l1 ih =>
    intro l2 cfg hnap hok hp he
    have hq_nap : q ≠ Provider.appveyor := hnap q (List.mem_cons_self q l1)
    have hcfg : (adapterCall inp w cfg q).2.1 = cfg := adapterCall_cfg inp w cfg q hq_nap
    obtain ⟨pre, hrun, hpre⟩ := ih l2 cfg
      (fun r hr => hnap r (List.mem_cons_of_mem q hr))
      (fun r hr hfr => hok r (List.mem_cons_of_mem q hr) hfr) hp he
    by_cases hfq : providerFlag inp q = true
    · have hqok := hok q (List.mem_cons_self q l1) hfq
      have hstep := stepProvider_ok inp w cfg q hfq hqok
      rw [hcfg] at hstep
      refine ⟨(adapterCall inp w cfg q).1 ++ pre, ?_, ?_⟩
      · rw [List.cons_append]
        simp only [runChain, hstep, hrun, List.append_assoc]
      · intro c hc
        rcases List.mem_append.mp hc with h | h
        · exact ⟨q, List.mem_cons_self q l1, adapterCall_provider inp w cfg q c h, hfq⟩
        · obtain ⟨r, hr, hcp, hfr⟩ := hpre c h
          exact ⟨r, List.mem_cons_of_mem q hr, hcp, hfr⟩
    · have hfq2 : providerFlag inp q = false := by
        cases hx : providerFlag inp q
        · rfl
        · exact absurd hx hfq
      have hstep := stepProvider_skip inp w cfg q hfq2
      refine ⟨pre, ?_, ?_⟩
      · rw [List.cons_append]
        simp only [runChain, hstep, hrun, List.nil_append]
      · intro c hc
        obtain ⟨r, hr, hcp, hfr⟩ := hpre c hc
        exact ⟨r, List.mem_cons_of_mem q hr, hcp, hfr⟩

/-! ## The outcome never depends on the token value

Every adapter's outcome and every configuration it leaves behind are fixed
by its world; only the outward call payloads embed the token. -/


theorem providerFlag_tokenSet (inp : RotateInput) (t : String) (q : Provider) :
    providerFlag (tokenSet inp t) q = providerFlag inp q := by
  cases q <;> rfl

theorem adapterCall_snd_tokenSet (inp : RotateInput) (w : Worlds) (cfg : Cfg)
    (t : String) (p : Provider) :
    (adapterCall (tokenSet inp t) w cfg p).2 = (adapterCall inp w cfg p).2 := by
  cases p
  · exact congrArg (fun r => (cfg, r))
      (circle_snd_world_only w.circleW inp.user inp.project t inp.user inp.project inp.token)
  · exact congrArg (fun r => (cfg, r))
      (drone_snd_world_only w.droneW inp.user inp.project t inp.user inp.project inp.token)
  · exact congrArg (fun r => (cfg, r))
      (travis_snd_world_only w.travisW inp.user inp.project t inp.user inp.project inp.token)
  · exact congrArg (fun r => (cfg, r))
      (azure_snd_world_only w.azureW inp.user inp.project t inp.user inp.project inp.token)
  · exact appveyor_snd_world_only w.appveyorW cfg t inp.token

theorem guardProvider_snd (d : Bool) (u pr : String) (p : Provider)
    (r1 r2 : List Call × Cfg × Except PyErr Unit) (h : r1.2 = r2.2) :
    (guardProvider d u pr p r1).2 = (guardProvider d u pr p r2).2 := by
  unfold guardProvider
  rw [h]
  cases hx : r2.2.2 with
  | ok v => cases v; rfl
  | error e => by_cases hd : d <;> simp [hd]

theorem stepProvider_snd_tokenSet (inp : RotateInput) (w : Worlds) (cfg : Cfg)
    (t : String) (p : Provider) :
    (stepProvider (tokenSet inp t) w cfg p).2 = (stepProvider inp w cfg p).2 := by
  unfold stepProvider
  rw [providerFlag_tokenSet]
  by_cases hf : providerFlag inp p = true
  · simp only [hf, if_true]
    exact guardProvider_snd w.debug inp.user inp.project p _ _
      (adapterCall_snd_tokenSet inp w cfg t p)
  · simp [hf]

theorem runChain_snd_tokenSet (inp : RotateInput) (w : Worlds) (t : String) :
    ∀ (l : List Provider) (cfg : Cfg),
      (runChain (tokenSet inp t) w l cfg).2 = (runChain inp w l cfg).2 := by
  intro l
  induction l with
  | nil => intro cfg; rfl
  | cons q l ih =>
    intro cfg
    have hs := stepProvider_snd_tokenSet inp w cfg t q
    simp only [runChain]
    rw [show (stepProvider (tokenSet inp t) w cfg q).2.2 =
        (stepProvider inp w cfg q).2.2 from congrArg Prod.snd hs]
    cases hx : (stepProvider inp w cfg q).2.2 with
    | done =>
      rw [show (stepProvider (tokenSet inp t) w cfg q).2.1 =
          (stepProvider inp w cfg q).2.1 from congrArg Prod.fst hs]
      simp only [ih]
    | raised e f m =>
      rw [show (stepProvider (tokenSet inp t) w cfg q).2.1 =
          (stepProvider inp w cfg q).2.1 from congrArg Prod.fst hs]

/-- Replacing the token changes nothing about the observable result,
final configuration, raise point or stream redirection of
`rotate_anaconda_token`; only the call payloads change. -/
theorem rotate_tokenSet_outcome (inp : RotateInput) (w : Worlds) (t : String) :
    (rotate_anaconda_token (tokenSet inp t) w).result = (rotate_anaconda_token inp w).result ∧
    (rotate_anaconda_token (tokenSet inp t) w).config = (rotate_anaconda_token inp w).config ∧
    (rotate_anaconda_token (tokenSet inp t) w).raisedAfterSuppression =
      (rotate_anaconda_token inp w).raisedAfterSuppression ∧
    (rotate_anaconda_token (tokenSet inp t) w).redirect =
      (rotate_anaconda_token inp w).redirect := by
  unfold rotate_anaconda_token
  by_cases h1 : w.anacondaTokenOk
  · by_cases h2 : w.auxImportsOk
    · simp only [h1, h2, not_true, if_false]
      have hs := runChain_snd_tokenSet inp w t providerOrder w.config
      rw [show (runChain (tokenSet inp t) w providerOrder w.config).2.2 =
          (runChain inp w providerOrder w.config).2.2 from congrArg Prod.snd hs]
      cases hx : (runChain inp w providerOrder w.config).2.2 with
      | done =>
        rw [show (runChain (tokenSet inp t) w providerOrder w.config).2.1 =
            (runChain inp w providerOrder w.config).2.1 from congrArg Prod.fst hs]
        exact ⟨rfl, rfl, rfl, rfl⟩
      | raised e f m =>
        rw [show (runChain (tokenSet inp t) w providerOrder w.config).2.1 =
            (runChain inp w providerOrder w.config).2.1 from congrArg Prod.fst hs]
        by_cases hd : w.debug <;> simp [hd, tokenSet]
    · simp [h1, h2]
  · simp [h1]

/-! ## Adapter path characterizations -/

theorem circle_create_when_absent (w : CircleWorld) (u p t : String)
    (hl : w.listStatus = 200)
    (hn : (w.envvars.any fun n => n == "BINSTAR_TOKEN") = false) :
    rotate_token_in_circle w u p t =
      ([Call.circleGetEnvvars, Call.circleCreate "BINSTAR_TOKEN" t],
        if w.createStatus ≠ 201 then Except.error (responseValueError w.createStatus)
        else Except.ok ()) := by
  unfold rotate_token_in_circle circleCreateStep
  by_cases hc : w.createStatus ≠ 201 <;> simp [hl, hn, hc]

theorem circle_delete_then_create (w : CircleWorld) (u p t : String)
    (hl : w.listStatus = 200)
    (hy : (w.envvars.any fun n => n == "BINSTAR_TOKEN") = true)
    (hd : w.deleteStatus = 200) :
    rotate_token_in_circle w u p t =
      ([Call.circleGetEnvvars, Call.circleDelete "BINSTAR_TOKEN",
        Call.circleCreate "BINSTAR_TOKEN" t],
        if w.createStatus ≠ 201 then Except.error (responseValueError w.createStatus)
        else Except.ok ()) := by
  unfold rotate_token_in_circle circleCreateStep
  by_cases hc : w.createStatus ≠ 201 <;> simp [hl, hy, hd, hc]

theorem drone_create_when_absent (w : DroneWorld) (u p t : String)
    (hl : w.listStatus = 200)
    (hn : (w.secrets.any fun n => "BINSTAR_TOKEN" == n) = false) :
    rotate_token_in_drone w u p t =
      ([Call.droneGetSecrets, Call.dronePost "BINSTAR_TOKEN" t],
        if w.postStatus ≠ 200 then raise_for_status w.postStatus else Except.ok ()) := by
  unfold rotate_token_in_drone
  simp [raise_for_status, hl, hn]

theorem drone_patch_when_present (w : DroneWorld) (u p t : String)
    (hl : w.listStatus = 200)
    (hy : (w.secrets.any fun n => "BINSTAR_TOKEN" == n) = true) :
    rotate_token_in_drone w u p t =
      ([Call.droneGetSecrets, Call.dronePatch "BINSTAR_TOKEN" t],
        raise_for_status w.patchStatus) := by
  unfold rotate_token_in_drone
  rw [hl]
  simp only [show raise_for_status 200 = Except.ok () by simp [raise_for_status], hy, if_true]

theorem travis_create_when_absent (w : TravisWorld) (u p t : String)
    (hl : w.listStatus = 200)
    (hn : (w.envVars.any fun ev => ev.1 == "BINSTAR_TOKEN") = false) :
    rotate_token_in_travis w u p t =
      ([Call.travisGetRepoInfo, Call.travisGetEnvVars, Call.travisPost "BINSTAR_TOKEN" t],
        if w.postStatus ≠ 201 then raise_for_status w.postStatus else Except.ok ()) := by
  unfold rotate_token_in_travis
  have hscan := travisScan_not_found w.envVars hn
  simp [hl, hscan]

theorem travis_patch_when_present (w : TravisWorld) (u p t : String)
    (l1 l2 : List (String × String)) (i : String)
    (hl : w.listStatus = 200)
    (hev : w.envVars = l1 ++ ("BINSTAR_TOKEN", i) :: l2)
    (h2 : ∀ ev ∈ l2, (ev.1 == "BINSTAR_TOKEN") = false) :
    rotate_token_in_travis w u p t =
      ([Call.travisGetRepoInfo, Call.travisGetEnvVars,
        Call.travisPatch (some i) "BINSTAR_TOKEN" t],
        raise_for_status w.patchStatus) := by
  unfold rotate_token_in_travis
  have hscan : travisScan w.envVars = (true, some i) := by
    rw [hev]; exact travisScan_found l1 l2 i h2
  simp [hl, hscan]

theorem azure_update_definition (w : AzureWorld) (u p t : String) (ed : AzureDef)
    (hd : w.existingDefinitions = [ed]) :
    rotate_token_in_azure w u p t =
      ([Call.azureGetDefinitions,
        Call.azureUpdateDefinition ed.id ed.revision
          (assocSet (ed.vars.getD []) "BINSTAR_TOKEN"
            { allow_override := false, is_secret := true, value := t })],
        Except.ok ()) := by
  unfold rotate_token_in_azure
  rw [hd]

theorem azure_no_definition (w : AzureWorld) (u p t : String)
    (hd : w.existingDefinitions = []) :
    rotate_token_in_azure w u p t =
      ([Call.azureGetDefinitions],
        Except.error ⟨"RuntimeError",
          "Cannot add BINSTAR_TOKEN to a repo that is not already registerd on azure CI!"⟩) := by
  unfold rotate_token_in_azure
  rw [hd]


theorem setdefault_fst_of_asMap (m : Cfg) (k : String) (av : List (String × CfgVal))
    (h : asMap (assocGet m k) = some av) :
    (setdefault m k (CfgVal.map [])).1 = CfgVal.map av := by
  unfold setdefault
  cases hx : assocGet m k with
  | none =>
    rw [hx] at h
    simp only [asMap, Option.some.injEq] at h
    simp [h]
  | some v =>
    cases v with
    | str s => rw [hx] at h; simp [asMap] at h
    | map mm =>
      rw [hx] at h
      simp only [asMap, Option.some.injEq] at h
      simp [h]

theorem assocGet_setdefault_ne {α : Type} (m : List (String × α)) (k k2 : String) (d : α)
    (h : k2 ≠ k) : assocGet (setdefault m k d).2 k2 = assocGet m k2 := by
  unfold setdefault
  cases hx : assocGet m k with
  | none => simp only []; exact assocGet_append_single_ne m k k2 d h
  | some v => rfl

theorem appveyor_config_write_spec (cfg : Cfg) (cipher : String)
    (av sec : List (String × CfgVal))
    (hav : asMap (assocGet cfg "appveyor") = some av)
    (hsec : asMap (assocGet av "secure") = some sec) :
    appveyor_config_write cfg cipher =
      Except.ok (assocSet (setdefault cfg "appveyor" (CfgVal.map [])).2 "appveyor"
        (CfgVal.map (assocSet (setdefault av "secure" (CfgVal.map [])).2 "secure"
          (CfgVal.map (assocSet sec "BINSTAR_TOKEN" (CfgVal.str cipher)))))) := by
  have hav2 := setdefault_fst_of_asMap cfg "appveyor" av hav
  have hsec2 := setdefault_fst_of_asMap av "secure" sec hsec
  unfold appveyor_config_write
  rw [hav2]
  simp only []
  rw [hsec2]

/-! ## Occurrences inside the synthesized message -/

theorem strHasSub_synthMsg_provName (u pr : String) (p : Provider) :
    strHasSub (synthMsg u pr p) (provName p) = true := by
  unfold strHasSub synthMsg
  simp only [String.data_append, List.append_assoc]
  apply listHasSub_append_right
  apply listHasSub_append_right
  apply listHasSub_append_right
  apply listHasSub_append_right
  apply listHasSub_append_right
  exact listHasSub_of_listStarts (listStarts_self_append _ _)

theorem strHasSub_synthMsg_userproject (u pr : String) (p : Provider) :
    strHasSub (synthMsg u pr p) (u ++ "/" ++ pr) = true := by
  unfold strHasSub synthMsg
  simp only [String.data_append, List.append_assoc]
  apply listHasSub_append_right
  apply listHasSub_of_listStarts
  have := listStarts_self_append (u.data ++ (("/").data ++ pr.data))
    ((" on ").data ++ ((provName p).data ++ ("!").data))
  simpa [List.append_assoc] using this


/-- Orchestrator-level first-failure characterization: with the imports
fine, the first enabled provider whose adapter raises determines the whole
outcome, later providers are never reached, and the result is either the
original exception (debug) or the synthesized sanitized `RuntimeError`. -/
theorem rotate_first_fail (inp : RotateInput) (w : Worlds) (p : Provider) (e : PyErr)
    (l1 l2 : List Provider)
    (horder : providerOrder = l1 ++ p :: l2)
    (hnap : ∀ q ∈ l1, q ≠ Provider.appveyor)
    (hlt : ∀ q ∈ l1, q.idx < p.idx)
    (htok : w.anacondaTokenOk = true) (haux : w.auxImportsOk = true)
    (hp : providerFlag inp p = true)
    (he : (adapterCall inp w w.config p).2.2 = Except.error e)
    (hearlier : ∀ q : Provider, q.idx < p.idx → providerFlag inp q = true →
      (adapterCall inp w w.config q).2.2 = Except.ok ()) :
    (rotate_anaconda_token inp w).result =
      (if w.debug then Except.error e
       else Except.error ⟨"RuntimeError", synthMsg inp.user inp.project p⟩) ∧
    (rotate_anaconda_token inp w).raisedAfterSuppression = !w.debug ∧
    (rotate_anaconda_token inp w).redirect = some (redirectTargets w.debug) ∧
    ∀ c ∈ (rotate_anaconda_token inp w).calls, (callProvider c).idx ≤ p.idx := by
  obtain ⟨pre, hrun, hpre⟩ := runChain_first_fail inp w p e l1 l2 w.config hnap
    (fun q hq hf => hearlier q (hlt q hq) hf) hp he
  rw [← horder] at hrun
  have hcallsmem : ∀ c ∈ pre ++ (adapterCall inp w w.config p).1,
      (callProvider c).idx ≤ p.idx := by
    intro c hc
    rcases List.mem_append.mp hc with h | h
    · obtain ⟨q, hq, hcp, _⟩ := hpre c h
      rw [hcp]
      exact Nat.le_of_lt (hlt q hq)
    · rw [adapterCall_provider inp w w.config p c h]
  unfold rotate_anaconda_token
  by_cases hd : w.debug
  · simp [htok, haux, hrun, hd]
    intro c hc
    exact hcallsmem c (List.mem_append.mpr hc)
  · have hd2 : w.debug = false := by
      cases hx : w.debug
      · rfl
      · exact absurd hx hd
    simp [htok, haux, hrun, hd2]
    intro c hc
    exact hcallsmem c (List.mem_append.mpr hc)

/-- `rotate_first_fail` specialized to the five concrete positions of the
provider order. -/
theorem rotate_first_fail_order (inp : RotateInput) (w : Worlds) (p : Provider) (e : PyErr)
    (htok : w.anacondaTokenOk = true) (haux : w.auxImportsOk = true)
    (hp : providerFlag inp p = true)
    (he : (adapterCall inp w w.config p).2.2 = Except.error e)
    (hearlier : ∀ q : Provider, q.idx < p.idx → providerFlag inp q = true →
      (adapterCall inp w w.config q).2.2 = Except.ok ()) :
    (rotate_anaconda_token inp w).result =
      (if w.debug then Except.error e
       else Except.error ⟨"RuntimeError", synthMsg inp.user inp.project p⟩) ∧
    (rotate_anaconda_token inp w).raisedAfterSuppression = !w.debug ∧
    (rotate_anaconda_token inp w).redirect = some (redirectTargets w.debug) ∧
    ∀ c ∈ (rotate_anaconda_token inp w).calls, (callProvider c).idx ≤ p.idx := by
  cases p with
  | circle =>
    exact rotate_first_fail inp w Provider.circle e []
      [Provider.drone, Provider.travis, Provider.azure, Provider.appveyor] rfl
      (by decide) (by decide) htok haux hp he hearlier
  | drone =>
    exact rotate_first_fail inp w Provider.drone e [Provider.circle]
      [Provider.travis, Provider.azure, Provider.appveyor] rfl
      (by decide) (by decide) htok haux hp he hearlier
  | travis =>
    exact rotate_first_fail inp w Provider.travis e [Provider.circle, Provider.drone]
      [Provider.azure, Provider.appveyor] rfl
      (by decide) (by decide) htok haux hp he hearlier
  | azure =>
    exact rotate_first_fail inp w Provider.azure e
      [Provider.circle, Provider.drone, Provider.travis] [Provider.appveyor] rfl
      (by decide) (by decide) htok haux hp he hearlier
  | appveyor =>
    exact rotate_first_fail inp w Provider.appveyor e
      [Provider.circle, Provider.drone, Provider.travis, Provider.azure] [] rfl
      (by decide) (by decide) htok haux hp he hearlier

/-- C1: in non-debug mode (no `DEBUG_ANACONDA_TOKENS` in the environment),
if an enabled provider's adapter raises any exception while every earlier
enabled provider in the fixed order (circle, drone, travis, azure, appveyor)
succeeded, then no adapter of a later provider is invoked, and after the
output-suppression scope is exited the function raises exactly one
`RuntimeError` whose message is
`"Failed to rotate token for {user}/{project} on {provider}!"` for that
provider — never the original exception's text. -/
theorem claim_C1_fail_fast_sanitized (inp : RotateInput) (w : Worlds) (p : Provider)
    (e : PyErr)
    (hdbg : w.debug = false) (htok : w.anacondaTokenOk = true)
    (haux : w.auxImportsOk = true)
    (hp : providerFlag inp p = true)
    (he : (adapterCall inp w w.config p).2.2 = Except.error e)
    (hearlier : ∀ q : Provider, q.idx < p.idx → providerFlag inp q = true →
      (adapterCall inp w w.config q).2.2 = Except.ok ()) :
    (rotate_anaconda_token inp w).result =
      Except.error ⟨"RuntimeError", synthMsg inp.user inp.project p⟩ ∧
    (rotate_anaconda_token inp w).raisedAfterSuppression = true ∧
    ∀ c ∈ (rotate_anaconda_token inp w).calls, (callProvider c).idx ≤ p.idx := by
  obtain ⟨h1, h2, _, h4⟩ := rotate_first_fail_order inp w p e htok haux hp he hearlier
  rw [hdbg] at h1 h2
  exact ⟨by simpa using h1, by simpa using h2, h4⟩

/-- C1 witness: user `u`, project `p`, circle enabled and failing with HTTP
500 on the listing call, production mode. -/
theorem claim_C1_witness :
    (rotate_anaconda_token inpFixture failCircleWorlds).result =
      Except.error ⟨"RuntimeError", "Failed to rotate token for u/p on circle!"⟩ ∧
    (rotate_anaconda_token inpFixture failCircleWorlds).raisedAfterSuppression = true ∧
    ∀ c ∈ (rotate_anaconda_token inpFixture failCircleWorlds).calls,
      (callProvider c).idx ≤ Provider.circle.idx :=
  claim_C1_fail_fast_sanitized inpFixture failCircleWorlds Provider.circle
    ⟨"HTTPError", "500 Error"⟩ rfl rfl rfl rfl rfl
    (fun q hq _ => absurd hq (Nat.not_lt_zero q.idx))

/-- C2 counterexample: with the debug flag set (and the token import fine),
the redirection installed by lines 46-53 sends BOTH streams to the original
stdout — `fpe = sys.stdout` on line 48 — so text written to stderr does not
go to stderr, contradicting the claim as stated. -/
theorem claim_C2_counterexample :
    (rotate_anaconda_token inpFixture debugOkWorlds).redirect =
      some (Sink.stdout, Sink.stdout) ∧
    ((Sink.stdout, Sink.stdout) : Sink × Sink) ≠ (Sink.stdout, Sink.stderr) := by
  exact ⟨rfl, by decide⟩

/-- C2 (amended): with the debug flag set, stdout output passes through to
the original stdout, and stderr output is also redirected to the original
stdout stream (so nothing is discarded, but stderr text lands on stdout). -/
theorem claim_C2_debug_passthrough (inp : RotateInput) (w : Worlds)
    (hdbg : w.debug = true) (htok : w.anacondaTokenOk = true)
    (haux : w.auxImportsOk = true) :
    (rotate_anaconda_token inp w).redirect = some (Sink.stdout, Sink.stdout) := by
  have ht : redirectTargets w.debug = (Sink.stdout, Sink.stdout) := by
    rw [hdbg]; rfl
  unfold rotate_anaconda_token
  simp only [htok, haux]
  cases hx : (runChain inp w providerOrder w.config).2.2 with
  | done => simp [hx, ht]
  | raised e f m => simp [hx, hdbg, redirectTargets]

/-- C2 witness: debug mode with all providers healthy. -/
theorem claim_C2_witness :
    (rotate_anaconda_token inpFixture debugOkWorlds).redirect =
      some (Sink.stdout, Sink.stdout) :=
  claim_C2_debug_passthrough inpFixture debugOkWorlds rfl rfl rfl

/-- C4 counterexample: the claim's "never containing the literal secret
token" fails for every token value that happens to occur in the fixed
message text: with the secret equal to the string `"token"`, the raised
message contains it. -/
theorem claim_C4_counterexample :
    (rotate_anaconda_token inpTokenWord failCircleWorlds).result =
      Except.error ⟨"RuntimeError", "Failed to rotate token for u/p on circle!"⟩ ∧
    strHasSub "Failed to rotate token for u/p on circle!" inpTokenWord.token = true := by
  exact ⟨rfl, rfl⟩

/-- C4 (amended): in non-debug mode, when an enabled provider's adapter
raises (earlier enabled providers having succeeded), the raised message
contains the provider's name and the `user/project` pair, and for every
possible token value the message is the same fixed string — so the token can
occur in it only when the token is itself a substring of that fixed text. -/
theorem claim_C4_sanitized_message (inp : RotateInput) (w : Worlds) (p : Provider)
    (e : PyErr)
    (hdbg : w.debug = false) (htok : w.anacondaTokenOk = true)
    (haux : w.auxImportsOk = true)
    (hp : providerFlag inp p = true)
    (he : (adapterCall inp w w.config p).2.2 = Except.error e)
    (hearlier : ∀ q : Provider, q.idx < p.idx → providerFlag inp q = true →
      (adapterCall inp w w.config q).2.2 = Except.ok ()) :
    (∀ t : String, (rotate_anaconda_token (tokenSet inp t) w).result =
      Except.error ⟨"RuntimeError", synthMsg inp.user inp.project p⟩) ∧
    strHasSub (synthMsg inp.user inp.project p) (provName p) = true ∧
    strHasSub (synthMsg inp.user inp.project p) (inp.user ++ "/" ++ inp.project) = true := by
  obtain ⟨h1, _, _, _⟩ := rotate_first_fail_order inp w p e htok haux hp he hearlier
  rw [hdbg] at h1
  refine ⟨?_, strHasSub_synthMsg_provName inp.user inp.project p,
    strHasSub_synthMsg_userproject inp.user inp.project p⟩
  intro t
  rw [(rotate_tokenSet_outcome inp w t).1]
  simpa using h1

/-- C4 witness: circle failing with HTTP 500, production mode. -/
theorem claim_C4_witness :
    (∀ t : String,
      (rotate_anaconda_token (tokenSet inpFixture t) failCircleWorlds).result =
        Except.error ⟨"RuntimeError", "Failed to rotate token for u/p on circle!"⟩) ∧
    strHasSub "Failed to rotate token for u/p on circle!" "circle" = true ∧
    strHasSub "Failed to rotate token for u/p on circle!" ("u" ++ "/" ++ "p") = true :=
  claim_C4_sanitized_message inpFixture failCircleWorlds Provider.circle
    ⟨"HTTPError", "500 Error"⟩ rfl rfl rfl rfl rfl
    (fun q hq _ => absurd hq (Nat.not_lt_zero q.idx))

/-- C5: with the debug flag set, if an enabled provider's adapter raises
(earlier enabled providers having succeeded), the original exception object
— same type, same message — propagates out of `rotate_anaconda_token`
unmodified, not replaced by a synthesized `RuntimeError` and not swallowed;
the raise happens while unwinding, not after the suppression scope. -/
theorem claim_C5_debug_reraises (inp : RotateInput) (w : Worlds) (p : Provider) (e : PyErr)
    (hdbg : w.debug = true) (htok : w.anacondaTokenOk = true)
    (haux : w.auxImportsOk = true)
    (hp : providerFlag inp p = true)
    (he : (adapterCall inp w w.config p).2.2 = Except.error e)
    (hearlier : ∀ q : Provider, q.idx < p.idx → providerFlag inp q = true →
      (adapterCall inp w w.config q).2.2 = Except.ok ()) :
    (rotate_anaconda_token inp w).result = Except.error e ∧
    (rotate_anaconda_token inp w).raisedAfterSuppression = false := by
  obtain ⟨h1, h2, _, _⟩ := rotate_first_fail_order inp w p e htok haux hp he hearlier
  rw [hdbg] at h1 h2
  exact ⟨by simpa using h1, by simpa using h2⟩

/-- C5 witness: debug mode, circle failing with HTTP 500: the `HTTPError`
itself escapes. -/
theorem claim_C5_witness :
    (rotate_anaconda_token inpFixture debugFailCircleWorlds).result =
      Except.error ⟨"HTTPError", "500 Error"⟩ ∧
    (rotate_anaconda_token inpFixture debugFailCircleWorlds).raisedAfterSuppression = false :=
  claim_C5_debug_reraises inpFixture debugFailCircleWorlds Provider.circle
    ⟨"HTTPError", "500 Error"⟩ rfl rfl rfl rfl rfl
    (fun q hq _ => absurd hq (Nat.not_lt_zero q.idx))

/-- C7: the anaconda-token capability check runs before any output
suppression is installed and before any provider adapter is invoked, and on
failure the function raises a visible
`RuntimeError("You must have the anaconda token defined to do token
rotation!")` — with no debug-mode hypothesis, so the error is never
swallowed in either mode. -/
theorem claim_C7_token_check_first (inp : RotateInput) (w : Worlds)
    (htok : w.anacondaTokenOk = false) :
    (rotate_anaconda_token inp w).result =
      Except.error ⟨"RuntimeError",
        "You must have the anaconda token defined to do token rotation!"⟩ ∧
    (rotate_anaconda_token inp w).redirect = none ∧
    (rotate_anaconda_token inp w).calls = [] := by
  unfold rotate_anaconda_token
  simp [htok]

/-- C7 witness: the missing-token error is identical in production and in
debug mode, with no redirection installed and no adapter called. -/
theorem claim_C7_witness :
    ((rotate_anaconda_token inpFixture noTokenWorlds).result =
      Except.error ⟨"RuntimeError",
        "You must have the anaconda token defined to do token rotation!"⟩ ∧
      (rotate_anaconda_token inpFixture noTokenWorlds).redirect = none ∧
      (rotate_anaconda_token inpFixture noTokenWorlds).calls = []) ∧
    ((rotate_anaconda_token inpFixture debugNoTokenWorlds).result =
      Except.error ⟨"RuntimeError",
        "You must have the anaconda token defined to do token rotation!"⟩ ∧
      (rotate_anaconda_token inpFixture debugNoTokenWorlds).redirect = none ∧
      (rotate_anaconda_token inpFixture debugNoTokenWorlds).calls = []) :=
  ⟨claim_C7_token_check_first inpFixture noTokenWorlds rfl,
   claim_C7_token_check_first inpFixture debugNoTokenWorlds rfl⟩

/-- C9: when azure reports no existing build definition for the project,
the adapter raises
`RuntimeError("Cannot add BINSTAR_TOKEN to a repo that is not already
registerd on azure CI!")` and performs no create or update operation: its
only outward call is the definition listing. -/
theorem claim_C9_azure_requires_registration (w : AzureWorld) (u p t : String)
    (hd : w.existingDefinitions = []) :
    rotate_token_in_azure w u p t =
      ([Call.azureGetDefinitions],
        Except.error ⟨"RuntimeError",
          "Cannot add BINSTAR_TOKEN to a repo that is not already registerd on azure CI!"⟩) ∧
    ∀ c ∈ (rotate_token_in_azure w u p t).1, c = Call.azureGetDefinitions := by
  have h := azure_no_definition w u p t hd
  refine ⟨h, ?_⟩
  rw [h]
  intro c hc
  simpa using hc

/-- C9 witness: a project with no registered azure definition. -/
theorem claim_C9_witness :
    rotate_token_in_azure azureEmptyWorld "u" "p" "tok" =
      ([Call.azureGetDefinitions],
        Except.error ⟨"RuntimeError",
          "Cannot add BINSTAR_TOKEN to a repo that is not already registerd on azure CI!"⟩) ∧
    ∀ c ∈ (rotate_token_in_azure azureEmptyWorld "u" "p" "tok").1,
      c = Call.azureGetDefinitions :=
  claim_C9_azure_requires_registration azureEmptyWorld "u" "p" "tok" rfl

/-- C10: when the appveyor encryption endpoint answers a non-200 status,
the adapter raises a `ValueError` before the local configuration is opened:
its only call is the encryption request, and the configuration it returns is
exactly the one it received. -/
theorem claim_C10_appveyor_error_before_config (w : AppveyorWorld) (cfg : Cfg) (t : String)
    (hs : w.encryptStatus ≠ 200) :
    rotate_token_in_appveyor w cfg t =
      ([Call.appveyorEncrypt t], cfg, Except.error (responseValueError w.encryptStatus)) ∧
    (responseValueError w.encryptStatus).ty = "ValueError" := by
  constructor
  · unfold rotate_token_in_appveyor
    simp [hs]
  · rfl

/-- C10 witness: encryption endpoint answering HTTP 500 leaves the
configuration untouched. -/
theorem claim_C10_witness :
    rotate_token_in_appveyor appveyorFailWorld cfgFixture "tok" =
      ([Call.appveyorEncrypt "tok"], cfgFixture,
        Except.error (responseValueError 500)) ∧
    (responseValueError 500).ty = "ValueError" :=
  claim_C10_appveyor_error_before_config appveyorFailWorld cfgFixture "tok" (by decide)

/-- C8: when the appveyor encryption endpoint answers HTTP 200 (and the
configuration is dict-shaped where the write descends), the adapter returns
normally and the configuration afterwards holds the returned ciphertext
under `appveyor → secure → BINSTAR_TOKEN`, while every other key at the top
level, under `appveyor` and under `appveyor.secure` is unchanged. -/
theorem claim_C8_appveyor_frame (w : AppveyorWorld) (cfg : Cfg) (t : String)
    (av sec : List (String × CfgVal))
    (hs : w.encryptStatus = 200)
    (hav : asMap (assocGet cfg "appveyor") = some av)
    (hsec : asMap (assocGet av "secure") = some sec) :
    ∃ av2 sec2 : List (String × CfgVal),
      (rotate_token_in_appveyor w cfg t).2.2 = Except.ok () ∧
      assocGet (rotate_token_in_appveyor w cfg t).2.1 "appveyor" =
        some (CfgVal.map av2) ∧
      assocGet av2 "secure" = some (CfgVal.map sec2) ∧
      assocGet sec2 "BINSTAR_TOKEN" = some (CfgVal.str w.encryptContent) ∧
      (∀ k, k ≠ "appveyor" →
        assocGet (rotate_token_in_appveyor w cfg t).2.1 k = assocGet cfg k) ∧
      (∀ k, k ≠ "secure" → assocGet av2 k = assocGet av k) ∧
      (∀ k, k ≠ "BINSTAR_TOKEN" → assocGet sec2 k = assocGet sec k) := by
  have hwrite := appveyor_config_write_spec cfg w.encryptContent av sec hav hsec
  have hrun : rotate_token_in_appveyor w cfg t =
      ([Call.appveyorEncrypt t,
        Call.appveyorConfigWrite ["appveyor", "secure", "BINSTAR_TOKEN"] w.encryptContent],
        assocSet (setdefault cfg "appveyor" (CfgVal.map [])).2 "appveyor"
          (CfgVal.map (assocSet (setdefault av "secure" (CfgVal.map [])).2 "secure"
            (CfgVal.map (assocSet sec "BINSTAR_TOKEN" (CfgVal.str w.encryptContent))))),
        Except.ok ()) := by
    unfold rotate_token_in_appveyor
    simp [hs, hwrite]
  refine ⟨assocSet (setdefault av "secure" (CfgVal.map [])).2 "secure"
      (CfgVal.map (assocSet sec "BINSTAR_TOKEN" (CfgVal.str w.encryptContent))),
    assocSet sec "BINSTAR_TOKEN" (CfgVal.str w.encryptContent),
    ?_, ?_, ?_, ?_, ?_, ?_, ?_⟩
  · rw [hrun]
  · rw [hrun]
    exact assocGet_assocSet_same _ _ _
  · exact assocGet_assocSet_same _ _ _
  · exact assocGet_assocSet_same _ _ _
  · intro k hk
    rw [hrun]
    show assocGet (assocSet (setdefault cfg "appveyor" (CfgVal.map [])).2 "appveyor" _) k
      = assocGet cfg k
    rw [assocGet_assocSet_ne _ _ _ _ hk]
    exact assocGet_setdefault_ne cfg "appveyor" k (CfgVal.map []) hk
  · intro k hk
    rw [assocGet_assocSet_ne _ _ _ _ hk]
    exact assocGet_setdefault_ne av "secure" k (CfgVal.map []) hk
  · intro k hk
    exact assocGet_assocSet_ne _ _ _ _ hk

/-- C8 witness: a configuration with existing top-level, `appveyor` and
`appveyor.secure` content, all of it preserved except the overwritten
`BINSTAR_TOKEN` entry. -/
theorem claim_C8_witness :
    ∃ av2 sec2 : List (String × CfgVal),
      (rotate_token_in_appveyor okAppveyor cfgBusy "tok").2.2 = Except.ok () ∧
      assocGet (rotate_token_in_appveyor okAppveyor cfgBusy "tok").2.1 "appveyor" =
        some (CfgVal.map av2) ∧
      assocGet av2 "secure" = some (CfgVal.map sec2) ∧
      assocGet sec2 "BINSTAR_TOKEN" = some (CfgVal.str okAppveyor.encryptContent) ∧
      (∀ k, k ≠ "appveyor" →
        assocGet (rotate_token_in_appveyor okAppveyor cfgBusy "tok").2.1 k =
          assocGet cfgBusy k) ∧
      (∀ k, k ≠ "secure" → assocGet av2 k = assocGet cfgBusyAv k) ∧
      (∀ k, k ≠ "BINSTAR_TOKEN" → assocGet sec2 k = assocGet cfgBusySec k) :=
  claim_C8_appveyor_frame okAppveyor cfgBusy "tok" cfgBusyAv cfgBusySec rfl rfl rfl

/-- C6: when a `BINSTAR_TOKEN` entry already exists, every provider updates
rather than creating a duplicate: travis patches the env var addressed by
the captured identifier of the existing entry; drone patches the secret
addressed by name; azure overwrites the `BINSTAR_TOKEN` variable of the
fetched definition and submits the whole definition back; circle deletes the
existing entry and then issues a single create. -/
theorem claim_C6_update_when_present :
    (∀ (w : TravisWorld) (u p t : String) (l1 l2 : List (String × String)) (i : String),
      w.listStatus = 200 →
      w.envVars = l1 ++ ("BINSTAR_TOKEN", i) :: l2 →
      (∀ ev ∈ l2, (ev.1 == "BINSTAR_TOKEN") = false) →
      (rotate_token_in_travis w u p t).1 =
        [Call.travisGetRepoInfo, Call.travisGetEnvVars,
          Call.travisPatch (some i) "BINSTAR_TOKEN" t]) ∧
    (∀ (w : DroneWorld) (u p t : String),
      w.listStatus = 200 →
      (w.secrets.any fun n => "BINSTAR_TOKEN" == n) = true →
      (rotate_token_in_drone w u p t).1 =
        [Call.droneGetSecrets, Call.dronePatch "BINSTAR_TOKEN" t]) ∧
    (∀ (w : AzureWorld) (u p t : String) (ed : AzureDef),
      w.existingDefinitions = [ed] →
      (rotate_token_in_azure w u p t).1 =
        [Call.azureGetDefinitions,
          Call.azureUpdateDefinition ed.id ed.revision
            (assocSet (ed.vars.getD []) "BINSTAR_TOKEN"
              { allow_override := false, is_secret := true, value := t })] ∧
      assocGet (assocSet (ed.vars.getD []) "BINSTAR_TOKEN"
          { allow_override := false, is_secret := true, value := t }) "BINSTAR_TOKEN" =
        some { allow_override := false, is_secret := true, value := t } ∧
      (∀ k, k ≠ "BINSTAR_TOKEN" →
        assocGet (assocSet (ed.vars.getD []) "BINSTAR_TOKEN"
            { allow_override := false, is_secret := true, value := t }) k =
          assocGet (ed.vars.getD []) k)) ∧
    (∀ (w : CircleWorld) (u p t : String),
      w.listStatus = 200 →
      (w.envvars.any fun n => n == "BINSTAR_TOKEN") = true →
      w.deleteStatus = 200 →
      (rotate_token_in_circle w u p t).1 =
        [Call.circleGetEnvvars, Call.circleDelete "BINSTAR_TOKEN",
          Call.circleCreate "BINSTAR_TOKEN" t] ∧
      ((rotate_token_in_circle w u p t).1.countP (isBinstarCreate t "")) = 1) := by
  refine ⟨?_, ?_, ?_, ?_⟩
  · intro w u p t l1 l2 i hl hev h2
    rw [travis_patch_when_present w u p t l1 l2 i hl hev h2]
  · intro w u p t hl hy
    rw [drone_patch_when_present w u p t hl hy]
  · intro w u p t ed hd
    refine ⟨?_, assocGet_assocSet_same _ _ _, fun k hk => assocGet_assocSet_ne _ _ _ _ hk⟩
    rw [azure_update_definition w u p t ed hd]
  · intro w u p t hl hy hd
    rw [circle_delete_then_create w u p t hl hy hd]
    refine ⟨rfl, ?_⟩
    simp [isBinstarCreate, List.countP_cons, List.countP_nil]

/-- C6 witness: each provider's world already holds a `BINSTAR_TOKEN`
entry; travis's captured identifier is the listed entry's id `"42"`. -/
theorem claim_C6_witness :
    (rotate_token_in_travis travisBusy "u" "p" "tok").1 =
      [Call.travisGetRepoInfo, Call.travisGetEnvVars,
        Call.travisPatch (some "42") "BINSTAR_TOKEN" "tok"] ∧
    (rotate_token_in_drone droneBusy "u" "p" "tok").1 =
      [Call.droneGetSecrets, Call.dronePatch "BINSTAR_TOKEN" "tok"] ∧
    ((rotate_token_in_azure azureBusyWorld "u" "p" "tok").1 =
      [Call.azureGetDefinitions,
        Call.azureUpdateDefinition azureBusyDef.id azureBusyDef.revision
          (assocSet (azureBusyDef.vars.getD []) "BINSTAR_TOKEN"
            { allow_override := false, is_secret := true, value := "tok" })] ∧
      assocGet (assocSet (azureBusyDef.vars.getD []) "BINSTAR_TOKEN"
          { allow_override := false, is_secret := true, value := "tok" }) "BINSTAR_TOKEN" =
        some { allow_override := false, is_secret := true, value := "tok" } ∧
      (∀ k, k ≠ "BINSTAR_TOKEN" →
        assocGet (assocSet (azureBusyDef.vars.getD []) "BINSTAR_TOKEN"
            { allow_override := false, is_secret := true, value := "tok" }) k =
          assocGet (azureBusyDef.vars.getD []) k)) ∧
    ((rotate_token_in_circle circleBusy "u" "p" "tok").1 =
      [Call.circleGetEnvvars, Call.circleDelete "BINSTAR_TOKEN",
        Call.circleCreate "BINSTAR_TOKEN" "tok"] ∧
      ((rotate_token_in_circle circleBusy "u" "p" "tok").1.countP
        (isBinstarCreate "tok" "")) = 1) :=
  ⟨claim_C6_update_when_present.1 travisBusy "u" "p" "tok" [("OTHER", "1")] [] "42"
    rfl rfl (by simp),
   claim_C6_update_when_present.2.1 droneBusy "u" "p" "tok" rfl rfl,
   claim_C6_update_when_present.2.2.1 azureBusyWorld "u" "p" "tok" azureBusyDef rfl,
   claim_C6_update_when_present.2.2.2 circleBusy "u" "p" "tok" rfl rfl rfl⟩

/-- C3: for every provider, when no `BINSTAR_TOKEN` entry exists yet, the
adapter issues exactly one create/upsert call carrying the name
`BINSTAR_TOKEN` and the new value (the raw token for circle, drone, travis
and azure; the provider-encrypted ciphertext for appveyor's local write);
and in the scenario with all five providers enabled and no existing entries,
five such calls are issued and `rotate_anaconda_token` returns normally. -/
theorem claim_C3_create_when_absent :
    (∀ (w : CircleWorld) (u p t cipher : String), w.listStatus = 200 →
      (w.envvars.any fun n => n == "BINSTAR_TOKEN") = false →
      (rotate_token_in_circle w u p t).1 =
        [Call.circleGetEnvvars, Call.circleCreate "BINSTAR_TOKEN" t] ∧
      ((rotate_token_in_circle w u p t).1.countP (isBinstarCreate t cipher)) = 1) ∧
    (∀ (w : DroneWorld) (u p t cipher : String), w.listStatus = 200 →
      (w.secrets.any fun n => "BINSTAR_TOKEN" == n) = false →
      (rotate_token_in_drone w u p t).1 =
        [Call.droneGetSecrets, Call.dronePost "BINSTAR_TOKEN" t] ∧
      ((rotate_token_in_drone w u p t).1.countP (isBinstarCreate t cipher)) = 1) ∧
    (∀ (w : TravisWorld) (u p t cipher : String), w.listStatus = 200 →
      (w.envVars.any fun ev => ev.1 == "BINSTAR_TOKEN") = false →
      (rotate_token_in_travis w u p t).1 =
        [Call.travisGetRepoInfo, Call.travisGetEnvVars,
          Call.travisPost "BINSTAR_TOKEN" t] ∧
      ((rotate_token_in_travis w u p t).1.countP (isBinstarCreate t cipher)) = 1) ∧
    (∀ (w : AzureWorld) (u p t cipher : String) (ed : AzureDef),
      w.existingDefinitions = [ed] →
      assocGet (ed.vars.getD []) "BINSTAR_TOKEN" = none →
      ((rotate_token_in_azure w u p t).1.countP (isBinstarCreate t cipher)) = 1 ∧
      (rotate_token_in_azure w u p t).2 = Except.ok ()) ∧
    (∀ (w : AppveyorWorld) (cfg : Cfg) (t : String) (av sec : List (String × CfgVal)),
      w.encryptStatus = 200 →
      asMap (assocGet cfg "appveyor") = some av →
      asMap (assocGet av "secure") = some sec →
      ((rotate_token_in_appveyor w cfg t).1.countP
        (isBinstarCreate t w.encryptContent)) = 1 ∧
      (rotate_token_in_appveyor w cfg t).2.2 = Except.ok ()) ∧
    (∀ (u p t : String) (w : Worlds) (ed : AzureDef) (av sec : List (String × CfgVal)),
      w.anacondaTokenOk = true → w.auxImportsOk = true →
      w.circleW.listStatus = 200 →
      (w.circleW.envvars.any fun n => n == "BINSTAR_TOKEN") = false →
      w.circleW.createStatus = 201 →
      w.droneW.listStatus = 200 →
      (w.droneW.secrets.any fun n => "BINSTAR_TOKEN" == n) = false →
      w.droneW.postStatus = 200 →
      w.travisW.listStatus = 200 →
      (w.travisW.envVars.any fun ev => ev.1 == "BINSTAR_TOKEN") = false →
      w.travisW.postStatus = 201 →
      w.azureW.existingDefinitions = [ed] →
      assocGet (ed.vars.getD []) "BINSTAR_TOKEN" = none →
      w.appveyorW.encryptStatus = 200 →
      asMap (assocGet w.config "appveyor") = some av →
      asMap (assocGet av "secure") = some sec →
      assocGet sec "BINSTAR_TOKEN" = none →
      (rotate_anaconda_token ⟨u, p, t, true, true, true, true, true⟩ w).result =
        Except.ok () ∧
      ((rotate_anaconda_token ⟨u, p, t, true, true, true, true, true⟩ w).calls.countP
        (isBinstarCreate t w.appveyorW.encryptContent)) = 5) := by
  refine ⟨?_, ?_, ?_, ?_, ?_, ?_⟩
  · intro w u p t cipher hl hn
    rw [circle_create_when_absent w u p t hl hn]
    exact ⟨rfl, by simp [isBinstarCreate, List.countP_cons, List.countP_nil]⟩
  · intro w u p t cipher hl hn
    rw [drone_create_when_absent w u p t hl hn]
    exact ⟨rfl, by simp [isBinstarCreate, List.countP_cons, List.countP_nil]⟩
  · intro w u p t cipher hl hn
    rw [travis_create_when_absent w u p t hl hn]
    exact ⟨rfl, by simp [isBinstarCreate, List.countP_cons, List.countP_nil]⟩
  · intro w u p t cipher ed hd han
    rw [azure_update_definition w u p t ed hd]
    refine ⟨?_, rfl⟩
    simp [isBinstarCreate, List.countP_cons, List.countP_nil, assocGet_assocSet_same]
  · intro w cfg t av sec hs hav hsec
    have hwrite := appveyor_config_write_spec cfg w.encryptContent av sec hav hsec
    have hrun : rotate_token_in_appveyor w cfg t =
        ([Call.appveyorEncrypt t,
          Call.appveyorConfigWrite ["appveyor", "secure", "BINSTAR_TOKEN"]
            w.encryptContent],
          assocSet (setdefault cfg "appveyor" (CfgVal.map [])).2 "appveyor"
            (CfgVal.map (assocSet (setdefault av "secure" (CfgVal.map [])).2 "secure"
              (CfgVal.map (assocSet sec "BINSTAR_TOKEN" (CfgVal.str w.encryptContent))))),
          Except.ok ()) := by
      unfold rotate_token_in_appveyor
      simp [hs, hwrite]
    rw [hrun]
    exact ⟨by simp [isBinstarCreate, List.countP_cons, List.countP_nil], rfl⟩
  · intro u p t w ed av sec htok haux hcl hcn hcc hdl hdn hdp htl htn htp hae han hvs
      hav hsec hvn
    have hC : rotate_token_in_circle w.circleW u p t =
        ([Call.circleGetEnvvars, Call.circleCreate "BINSTAR_TOKEN" t], Except.ok ()) := by
      rw [circle_create_when_absent w.circleW u p t hcl hcn]
      simp [hcc]
    have hD : rotate_token_in_drone w.droneW u p t =
        ([Call.droneGetSecrets, Call.dronePost "BINSTAR_TOKEN" t], Except.ok ()) := by
      rw [drone_create_when_absent w.droneW u p t hdl hdn]
      simp [hdp]
    have hT : rotate_token_in_travis w.travisW u p t =
        ([Call.travisGetRepoInfo, Call.travisGetEnvVars,
          Call.travisPost "BINSTAR_TOKEN" t], Except.ok ()) := by
      rw [travis_create_when_absent w.travisW u p t htl htn]
      simp [htp]
    have hA := azure_update_definition w.azureW u p t ed hae
    have hwrite := appveyor_config_write_spec w.config w.appveyorW.encryptContent av sec
      hav hsec
    have hV : rotate_token_in_appveyor w.appveyorW w.config t =
        ([Call.appveyorEncrypt t,
          Call.appveyorConfigWrite ["appveyor", "secure", "BINSTAR_TOKEN"]
            w.appveyorW.encryptContent],
          assocSet (setdefault w.config "appveyor" (CfgVal.map [])).2 "appveyor"
            (CfgVal.map (assocSet (setdefault av "secure" (CfgVal.map [])).2 "secure"
              (CfgVal.map (assocSet sec "BINSTAR_TOKEN"
                (CfgVal.str w.appveyorW.encryptContent))))),
          Except.ok ()) := by
      unfold rotate_token_in_appveyor
      simp [hvs, hwrite]
    constructor
    · unfold rotate_anaconda_token
      simp [htok, haux, providerOrder, runChain, stepProvider, providerFlag,
        adapterCall, guardProvider, hC, hD, hT, hA, hV]
    · unfold rotate_anaconda_token
      simp [htok, haux, providerOrder, runChain, stepProvider, providerFlag,
        adapterCall, guardProvider, hC, hD, hT, hA, hV, isBinstarCreate,
        List.countP_cons, List.countP_nil, assocGet_assocSet_same]

/-- C3 witness: all five providers healthy with no existing entries; the
scenario instance runs on `okWorlds` and issues five create calls. -/
theorem claim_C3_witness :
    ((rotate_token_in_circle okCircle "u" "p" "tok").1 =
      [Call.circleGetEnvvars, Call.circleCreate "BINSTAR_TOKEN" "tok"] ∧
      ((rotate_token_in_circle okCircle "u" "p" "tok").1.countP
        (isBinstarCreate "tok" "CIPHER")) = 1) ∧
    ((rotate_token_in_drone okDrone "u" "p" "tok").1 =
      [Call.droneGetSecrets, Call.dronePost "BINSTAR_TOKEN" "tok"] ∧
      ((rotate_token_in_drone okDrone "u" "p" "tok").1.countP
        (isBinstarCreate "tok" "CIPHER")) = 1) ∧
    ((rotate_token_in_travis okTravis "u" "p" "tok").1 =
      [Call.travisGetRepoInfo, Call.travisGetEnvVars,
        Call.travisPost "BINSTAR_TOKEN" "tok"] ∧
      ((rotate_token_in_travis okTravis "u" "p" "tok").1.countP
        (isBinstarCreate "tok" "CIPHER")) = 1) ∧
    (((rotate_token_in_azure okAzure "u" "p" "tok").1.countP
        (isBinstarCreate "tok" "CIPHER")) = 1 ∧
      (rotate_token_in_azure okAzure "u" "p" "tok").2 = Except.ok ()) ∧
    (((rotate_token_in_appveyor okAppveyor cfgFixture "tok").1.countP
        (isBinstarCreate "tok" okAppveyor.encryptContent)) = 1 ∧
      (rotate_token_in_appveyor okAppveyor cfgFixture "tok").2.2 = Except.ok ()) ∧
    ((rotate_anaconda_token ⟨"u", "p", "tok", true, true, true, true, true⟩ okWorlds).result =
      Except.ok () ∧
      ((rotate_anaconda_token ⟨"u", "p", "tok", true, true, true, true, true⟩
        okWorlds).calls.countP
        (isBinstarCreate "tok" okWorlds.appveyorW.encryptContent)) = 5) :=
  ⟨claim_C3_create_when_absent.1 okCircle "u" "p" "tok" "CIPHER" rfl rfl,
   claim_C3_create_when_absent.2.1 okDrone "u" "p" "tok" "CIPHER" rfl rfl,
   claim_C3_create_when_absent.2.2.1 okTravis "u" "p" "tok" "CIPHER" rfl rfl,
   claim_C3_create_when_absent.2.2.2.1 okAzure "u" "p" "tok" "CIPHER" okAzureDef rfl rfl,
   claim_C3_create_when_absent.2.2.2.2.1 okAppveyor cfgFixture "tok" [] [] rfl rfl rfl,
   claim_C3_create_when_absent.2.2.2.2.2 "u" "p" "tok" okWorlds okAzureDef [] []
     rfl rfl rfl rfl rfl rfl rfl rfl rfl rfl rfl rfl rfl rfl rfl rfl rfl⟩

end CondaSmithy
